import Mathlib

/-!
Shallow embedding of the gitu TUI core (src/main.rs and src/ops/reset.rs).

The embedding mirrors the Rust source: `State`, `handle_op`, `update`,
`closure_by_target_op`, the spawn guards, and the reset operations are
translated arm by arm.  Parts of the repository that the source refers to
but that are not present (command.rs, screen.rs, keybinds.rs, git.rs,
diff.rs, the prompt machinery of ops/mod.rs) are modelled from the
specification; each such definition carries a doc comment saying so.

Conventions: the screen stack is a `List Screen` whose LAST element is the
top of the stack, matching `Vec` push/pop at the end; child processes are
values (`CmdSpec`); byte buffers are `String`s; the terminal handle, which
the Rust code threads through but never reads, is dropped.
-/

namespace Gitu

/-- Transient key groups.  Modelled from the spec: keybinds.rs is not in
src/; main.rs uses `TransientOp::None` and `TransientOp::Help`, and the spec
describes further named groups, abstracted here as `Other n`. -/
inductive TransientOp where
  | NoneT
  | Help
  | Other (n : Nat)
deriving DecidableEq, Repr

/-- Target operations, exactly the variants matched in
`closure_by_target_op` (the match in main.rs is exhaustive). -/
inductive TargetOp where
  | Show
  | Stage
  | Unstage
  | RebaseInteractive
  | CommitFixup
  | RebaseAutosquash
  | Discard
  | Checkout
deriving DecidableEq, Repr

/-- A file change (one side pair of paths).  Modelled from the spec:
diff.rs is not in src/; only the fields the dispatch logic reads are
carried (old path and new path, which differ on rename/copy). -/
structure Delta where
  old_file : String
  new_file : String
deriving DecidableEq, Repr

/-- A hunk with its parent-file context.  Modelled from the spec: diff.rs
is not in src/; `new_file` is the parent file, `first_diff_line_val` is the
value `first_diff_line()` returns, and `patch` is the text
`format_patch()` produces. -/
structure Hunk where
  new_file : String
  first_diff_line_val : Nat
  patch : String
deriving DecidableEq, Repr

/-- Modelled from the spec: locates the first added or removed line of the
hunk, used for jump-to-change editor targeting. -/
def Hunk.first_diff_line (h : Hunk) : Nat :=
  h.first_diff_line_val

/-- Modelled from the spec: re-emits the hunk as a standalone patch text. -/
def Hunk.format_patch (h : Hunk) : String :=
  h.patch

/-- The payload of a selectable item, as in items.rs. -/
inductive TargetData where
  | Ref (r : String)
  | File (u : String)
  | Delta (d : Gitu.Delta)
  | Hunk (h : Gitu.Hunk)
deriving DecidableEq, Repr

/-- A process specification: program plus argument list (std::process::Command). -/
structure CmdSpec where
  program : String
  args : List String
deriving DecidableEq, Repr

namespace git

/-- Modelled from the spec: git.rs is not in src/.  The commands are pure
`(args) -> process-spec` builders; only their identity matters here. -/
def fetch_all_cmd : CmdSpec := ⟨"git", ["fetch", "--all"]⟩

/-- Modelled from the spec: see `fetch_all_cmd`. -/
def pull_cmd : CmdSpec := ⟨"git", ["pull"]⟩

/-- Modelled from the spec: see `fetch_all_cmd`. -/
def push_cmd : CmdSpec := ⟨"git", ["push"]⟩

/-- Modelled from the spec: see `fetch_all_cmd`. -/
def rebase_abort_cmd : CmdSpec := ⟨"git", ["rebase", "--abort"]⟩

/-- Modelled from the spec: see `fetch_all_cmd`. -/
def rebase_continue_cmd : CmdSpec := ⟨"git", ["rebase", "--continue"]⟩

/-- Modelled from the spec: see `fetch_all_cmd`. -/
def commit_cmd : CmdSpec := ⟨"git", ["commit"]⟩

/-- Modelled from the spec: see `fetch_all_cmd`. -/
def commit_amend_cmd : CmdSpec := ⟨"git", ["commit", "--amend"]⟩

/-- Modelled from the spec: see `fetch_all_cmd`. -/
def stage_file_cmd (u : String) : CmdSpec := ⟨"git", ["add", u]⟩

/-- Modelled from the spec: see `fetch_all_cmd`; the patch is piped on stdin. -/
def stage_patch_cmd : CmdSpec := ⟨"git", ["apply", "--cached"]⟩

/-- Modelled from the spec: see `fetch_all_cmd`. -/
def unstage_file_cmd (u : String) : CmdSpec := ⟨"git", ["restore", "--staged", u]⟩

/-- Modelled from the spec: see `fetch_all_cmd`; the patch is piped on stdin. -/
def unstage_patch_cmd : CmdSpec := ⟨"git", ["apply", "--cached", "--reverse"]⟩

/-- Modelled from the spec: see `fetch_all_cmd`; the patch is piped on stdin. -/
def discard_unstaged_patch_cmd : CmdSpec := ⟨"git", ["apply", "--reverse"]⟩

/-- Modelled from the spec: see `fetch_all_cmd`. -/
def checkout_file_cmd (u : String) : CmdSpec := ⟨"git", ["checkout", "--", u]⟩

/-- Modelled from the spec: see `fetch_all_cmd`. -/
def checkout_ref_cmd (r : String) : CmdSpec := ⟨"git", ["checkout", r]⟩

/-- Modelled from the spec: see `fetch_all_cmd`. -/
def rebase_interactive_cmd (r : String) : CmdSpec := ⟨"git", ["rebase", "-i", "--autostash", r]⟩

/-- Modelled from the spec: see `fetch_all_cmd`. -/
def commit_fixup_cmd (r : String) : CmdSpec := ⟨"git", ["commit", "--fixup", r]⟩

/-- Modelled from the spec: see `fetch_all_cmd`. -/
def rebase_autosquash_cmd (r : String) : CmdSpec := ⟨"git", ["rebase", "-i", "--autosquash", "--autostash", r]⟩

end git

/-- A spawned child command.  Modelled from the spec: command.rs is not in
src/.  `running` is the child's liveness as `is_running` reports it,
`finish_acked` is the latch behind the edge-triggered `just_finished`,
`buffer` is the drained output, `pending_output` is output the child has
produced that has not yet been drained. -/
structure IssuedCommand where
  spec : CmdSpec
  stdin : String
  subscreen : Bool
  running : Bool
  finish_acked : Bool
  buffer : String
  pending_output : String
deriving DecidableEq, Repr

/-- Modelled from the spec: polls whether the child is still running. -/
def IssuedCommand.is_running (c : IssuedCommand) : Bool :=
  c.running

/-- Modelled from the spec: one non-blocking drain of the output pipes into
the buffer. -/
def IssuedCommand.read_command_output_to_buffer (c : IssuedCommand) : IssuedCommand :=
  { c with buffer := c.buffer ++ c.pending_output, pending_output := "" }

/-- Modelled from the spec: edge-triggered completion test; reports `true`
at most once per completion, latching `finish_acked`.  The Rust method
mutates the command, so the updated command is returned alongside the
flag. -/
def IssuedCommand.just_finished (c : IssuedCommand) : Bool × IssuedCommand :=
  if c.finish_acked then (false, c)
  else if c.running then (false, c)
  else (true, { c with finish_acked := true })

/-- Modelled from the spec: captured-mode spawn; stdin is fed `input`, the
child starts running with empty buffers. -/
def IssuedCommand.spawn (input : String) (cmd : CmdSpec) : IssuedCommand :=
  { spec := cmd, stdin := input, subscreen := false, running := true,
    finish_acked := false, buffer := "", pending_output := "" }

/-- Modelled from the spec: terminal-handoff spawn; blocks synchronously
until the child exits, so the stored command is already finished when the
call returns. -/
def IssuedCommand.spawn_in_subscreen (cmd : CmdSpec) : IssuedCommand :=
  { spec := cmd, stdin := "", subscreen := true, running := false,
    finish_acked := false, buffer := "", pending_output := "" }

/-- The query a screen was created from. -/
inductive ScreenKind where
  | Status
  | Log (args : List String)
  | ShowQ (args : List String)
  | DiffQ (args : List String)
  | Refs
deriving DecidableEq, Repr

/-- A screen.  Modelled from the spec: screen.rs is not in src/.  The item
tree and cursor are abstracted away; we carry the query kind, the viewport
size, the selected item's target data (what `get_selected_item().target_data`
yields), and a counter of `update` invocations so refresh calls are
observable. -/
structure Screen where
  kind : ScreenKind
  size : Nat × Nat
  selected_target : Option TargetData
  updates : Nat
deriving DecidableEq, Repr

/-- Modelled from the spec: re-runs the bound query and rebuilds the item
tree; content is abstract here, so only the invocation counter moves. -/
def Screen.update (sc : Screen) : Screen :=
  { sc with updates := sc.updates + 1 }

/-- Modelled from the spec: clamps the selection index into the flattened
sequence; selection is not part of this abstraction, so nothing tracked
changes. -/
def Screen.clamp_cursor (sc : Screen) : Screen :=
  sc

/-- Modelled from the spec: folding acts on the item tree, which this
abstraction does not carry. -/
def Screen.toggle_section (sc : Screen) : Screen :=
  sc

/-- Modelled from the spec: cursor movement within the flattened sequence. -/
def Screen.select_previous (sc : Screen) : Screen :=
  sc

/-- Modelled from the spec: cursor movement within the flattened sequence. -/
def Screen.select_next (sc : Screen) : Screen :=
  sc

/-- Modelled from the spec: scrolling by half a viewport. -/
def Screen.scroll_half_page_up (sc : Screen) : Screen :=
  sc

/-- Modelled from the spec: scrolling by half a viewport. -/
def Screen.scroll_half_page_down (sc : Screen) : Screen :=
  sc

namespace screen

/-- Modelled from the spec: screen::show::create. -/
def show_create (args : List String) : Screen :=
  { kind := ScreenKind.ShowQ args, size := (0, 0), selected_target := none, updates := 0 }

/-- Modelled from the spec: screen::log::create. -/
def log_create (args : List String) : Screen :=
  { kind := ScreenKind.Log args, size := (0, 0), selected_target := none, updates := 0 }

/-- Modelled from the spec: screen::show_refs::create. -/
def show_refs_create : Screen :=
  { kind := ScreenKind.Refs, size := (0, 0), selected_target := none, updates := 0 }

/-- Modelled from the spec: screen::status::create. -/
def status_create : Screen :=
  { kind := ScreenKind.Status, size := (0, 0), selected_target := none, updates := 0 }

end screen

/-- The application state of main.rs.  `screens` is the navigation stack,
top of stack LAST (matching Vec).  `editor_env` models the EDITOR
environment variable (the Rust code panics when it is unset; the claims
presuppose it set).  `removed_files` is an effect trace of
`std::fs::remove_file` calls, which main.rs performs directly for
discard-of-untracked-file. -/
structure State where
  quit : Bool
  screens : List Screen
  pending_transient_op : TransientOp
  command : Option IssuedCommand
  editor_env : String
  removed_files : List String
deriving DecidableEq, Repr

/-- Applies `f` to the last element of the list, if any; this is what the
Rust `screens.last_mut()` mutations amount to. -/
def updateLast (f : Screen → Screen) : List Screen → List Screen
  | [] => []
  | [x] => [f x]
  | x :: y :: xs => x :: updateLast f (y :: xs)

/-- Mirrors `self.command.as_mut().is_some_and(|cmd| cmd.is_running())`. -/
def commandIsRunning (o : Option IssuedCommand) : Bool :=
  match o with
  | some c => c.is_running
  | none => false

/-- `state.screen_mut().update()`.  The Rust accessor panics when the stack
is empty; every call site in main.rs is reached with a screen present, and
on the empty list this is a no-op. -/
def State.update_top (s : State) : State :=
  { s with screens := updateLast Screen.update s.screens }

/-- State::issue_command (main.rs lines 75-85): spawn a captured-mode
command unless one is already running. -/
def State.issue_command (s : State) (input : String) (cmd : CmdSpec) : State :=
  if !(commandIsRunning s.command) then
    { s with command := some (IssuedCommand.spawn input cmd) }
  else
    s

/-- State::issue_subscreen_command (main.rs lines 87-97): spawn a
terminal-handoff command unless one is already running. -/
def State.issue_subscreen_command (s : State) (cmd : CmdSpec) : State :=
  if !(commandIsRunning s.command) then
    { s with command := some (IssuedCommand.spawn_in_subscreen cmd) }
  else
    s

/-- State::clear_finished_command (main.rs lines 99-105). -/
def State.clear_finished_command (s : State) : State :=
  match s.command with
  | some c => if !c.is_running then { s with command := none } else s
  | none => s

/-- State::handle_command_output (main.rs lines 107-115): drain the live
command's output, and refresh the top screen when the completion edge
fires. -/
def State.handle_command_output (s : State) : State :=
  match s.command with
  | none => s
  | some c =>
    let c1 := c.read_command_output_to_buffer
    let jf := c1.just_finished
    let s1 := { s with command := some jf.2 }
    if jf.1 then s1.update_top else s1

/-- goto_show_screen (main.rs lines 304-308). -/
def goto_show_screen (r : String) : Option (State → State) :=
  some (fun s => { s with screens := s.screens ++ [screen.show_create [r]] })

/-- The editor argument convention of main.rs lines 318-326: a small fixed
table of editors takes `+line`, anything else takes `file:line`, and with
no line the file path stands alone. -/
def editor_args (ed : String) (file : String) (line : Option Nat) : List String :=
  match line with
  | some l =>
    match ed with
    | "vi" | "vim" | "nvim" | "nano" => ["+" ++ toString l, file]
    | _ => [file ++ ":" ++ toString l]
  | none => [file]

/-- The body of the closure `editor` returns (main.rs lines 314-335):
build the editor command from the EDITOR variable, run it in a subscreen,
then refresh. -/
def editor_run (file : String) (line : Option Nat) (s : State) : State :=
  let cmd : CmdSpec := { program := s.editor_env, args := editor_args s.editor_env file line }
  (s.issue_subscreen_command cmd).update_top

/-- editor (main.rs lines 310-336). -/
def editor (file : String) (line : Option Nat) : Option (State → State) :=
  some (editor_run file line)

/-- cmd (main.rs lines 338-348): issue a captured command with the given
stdin, then refresh. -/
def cmd (input : String) (command : CmdSpec) : Option (State → State) :=
  some (fun s => (s.issue_command input command).update_top)

/-- cmd_arg (main.rs lines 350-361): issue a captured command built from
one argument, empty stdin, then refresh. -/
def cmd_arg (command : String → CmdSpec) (arg : String) : Option (State → State) :=
  some (fun s => (s.issue_command "" (command arg)).update_top)

/-- subscreen_arg (main.rs lines 363-374): issue a terminal-handoff command
built from one argument, then refresh. -/
def subscreen_arg (command : String → CmdSpec) (arg : String) : Option (State → State) :=
  some (fun s => (s.issue_subscreen_command (command arg)).update_top)

/-- closure_by_target_op (main.rs lines 256-302), arm for arm. -/
def closure_by_target_op (target : TargetData) (target_op : TargetOp) : Option (State → State) :=
  match target_op, target with
  | .Show, .Ref r => goto_show_screen r
  | .Show, .File u => editor u none
  | .Show, .Delta d => editor d.new_file none
  | .Show, .Hunk h => editor h.new_file (some h.first_diff_line)
  | .Stage, .Ref _ => none
  | .Stage, .File u => cmd_arg git.stage_file_cmd u
  | .Stage, .Delta d => cmd_arg git.stage_file_cmd d.new_file
  | .Stage, .Hunk h => cmd h.format_patch git.stage_patch_cmd
  | .Unstage, .Ref _ => none
  | .Unstage, .File _ => none
  | .Unstage, .Delta d => cmd_arg git.unstage_file_cmd d.new_file
  | .Unstage, .Hunk h => cmd h.format_patch git.unstage_patch_cmd
  | .RebaseInteractive, .Ref r => subscreen_arg git.rebase_interactive_cmd r
  | .RebaseInteractive, _ => none
  | .CommitFixup, .Ref r => subscreen_arg git.commit_fixup_cmd r
  | .CommitFixup, _ => none
  | .RebaseAutosquash, .Ref r => subscreen_arg git.rebase_autosquash_cmd r
  | .RebaseAutosquash, _ => none
  | .Discard, .Ref _ => none
  | .Discard, .File f =>
    some (fun s => ({ s with removed_files := s.removed_files ++ [f] }).update_top)
  | .Discard, .Delta d =>
    if d.old_file = d.new_file then cmd_arg git.checkout_file_cmd d.old_file
    else none
  | .Discard, .Hunk h => cmd h.format_patch git.discard_unstaged_patch_cmd
  | .Checkout, .Ref r => cmd_arg git.checkout_ref_cmd r
  | .Checkout, _ => none

/-- goto_log_screen (main.rs lines 376-379): drop every screen above the
root (`drain(1..)`), then push a fresh log screen. -/
def goto_log_screen (screens : List Screen) : List Screen :=
  screens.take 1 ++ [screen.log_create []]

/-- goto_refs_screen (main.rs lines 381-384). -/
def goto_refs_screen (screens : List Screen) : List Screen :=
  screens.take 1 ++ [screen.show_refs_create]

/-- A key press: abstract key code plus whether the event kind is Press. -/
structure KeyEvent where
  code : Nat
  press : Bool
deriving DecidableEq, Repr

/-- Terminal events as the event loop distinguishes them. -/
inductive Event where
  | Key (k : KeyEvent)
  | Resize (w : Nat) (h : Nat)
  | Other
deriving DecidableEq, Repr

/-- Operations, exactly the variants matched in handle_op. -/
inductive Op where
  | Quit
  | Refresh
  | ToggleSection
  | SelectPrevious
  | SelectNext
  | HalfPageUp
  | HalfPageDown
  | Commit
  | CommitAmend
  | Transient (t : TransientOp)
  | LogCurrent
  | FetchAll
  | PullRemote
  | PushRemote
  | Target (t : TargetOp)
  | RebaseAbort
  | RebaseContinue
  | ShowRefs
deriving DecidableEq, Repr

/-- The keybinding table, abstracted.  Modelled from the spec: keybinds.rs
is not in src/; `op_of_key_event` looks a key up against the active
transient group and yields the bound operation, if any.  The static table
is a parameter of the dispatch functions. -/
def KeyLookup : Type :=
  TransientOp → KeyEvent → Option Op

/-- The `pending` local of handle_op (main.rs lines 180-184): a pending
Help group is looked up as if no group were pending. -/
def State.effective_pending (s : State) : TransientOp :=
  if s.pending_transient_op = TransientOp.Help then TransientOp.NoneT
  else s.pending_transient_op

/-- The Target arm of handle_op (main.rs lines 226-232): look at the
selected item's target data and run the closure the pair resolves to, when
there is one. -/
def target_dispatch (top : TargetOp) (s1 : State) : State :=
  match s1.screens.getLast? with
  | none => s1
  | some sc =>
    match sc.selected_target with
    | some act =>
      match closure_by_target_op act top with
      | some f => f s1
      | none => s1
    | none => s1

/-- handle_op (main.rs lines 175-246), arm for arm.  The `lookup` argument
stands for `keybinds::op_of_key_event`. -/
def handle_op (lookup : KeyLookup) (s : State) (key : KeyEvent) : State :=
  match lookup s.effective_pending key with
  | none => s
  | some op =>
    let was_transient : Bool := decide (s.pending_transient_op ≠ TransientOp.NoneT)
    let s1 : State := { s with pending_transient_op := TransientOp.NoneT }
    match op with
    | .Quit =>
      if was_transient then s1
      else
        let screens := s1.screens.dropLast
        if screens.isEmpty then { s1 with screens := screens, quit := true }
        else { s1 with screens := updateLast Screen.update screens }
    | .Refresh => s1.update_top
    | .ToggleSection => { s1 with screens := updateLast Screen.toggle_section s1.screens }
    | .SelectPrevious => { s1 with screens := updateLast Screen.select_previous s1.screens }
    | .SelectNext => { s1 with screens := updateLast Screen.select_next s1.screens }
    | .HalfPageUp => { s1 with screens := updateLast Screen.scroll_half_page_up s1.screens }
    | .HalfPageDown => { s1 with screens := updateLast Screen.scroll_half_page_down s1.screens }
    | .Commit => (s1.issue_subscreen_command git.commit_cmd).update_top
    | .CommitAmend => (s1.issue_subscreen_command git.commit_amend_cmd).update_top
    | .Transient t => { s1 with pending_transient_op := t }
    | .LogCurrent => { s1 with screens := goto_log_screen s1.screens }
    | .FetchAll => (s1.issue_command "" git.fetch_all_cmd).update_top
    | .PullRemote => s1.issue_command "" git.pull_cmd
    | .PushRemote => s1.issue_command "" git.push_cmd
    | .Target top => target_dispatch top s1
    | .RebaseAbort => (s1.issue_command "" git.rebase_abort_cmd).update_top
    | .RebaseContinue => (s1.issue_command "" git.rebase_continue_cmd).update_top
    | .ShowRefs => { s1 with screens := goto_refs_screen s1.screens }

/-- update (main.rs lines 147-173): drain command output first, then handle
the event (key presses only on the Press kind, after clearing a finished
command), then clamp the cursor of the remaining top screen.  The terminal
draw has no state effect. -/
def update (lookup : KeyLookup) (s : State) (e : Event) : State :=
  let s0 := s.handle_command_output
  let s1 :=
    match e with
    | .Resize w h => { s0 with screens := updateLast (fun sc => { sc with size := (w, h) }) s0.screens }
    | .Key k => if k.press then handle_op lookup s0.clear_finished_command k else s0
    | .Other => s0
  { s1 with screens := updateLast Screen.clamp_cursor s1.screens }

/-- run (main.rs lines 131-145) over a finite trace of delivered events:
the loop polls until an event arrives, handles it through `update`, and
stops as soon as `quit` is set. -/
def run (lookup : KeyLookup) (events : List Event) (s : State) : State :=
  match events with
  | [] => s
  | e :: es => if s.quit then s else run lookup es (update lookup s e)

namespace reset

/-- A process run request: the command plus the bytes fed to stdin.
Modelled from the spec: `State::run_cmd` (state.rs, not in src/) runs the
command with the given stdin; the reset callbacks are modelled as
returning the request they hand to it. -/
structure RunSpec where
  cmd : CmdSpec
  stdin : String
deriving DecidableEq, Repr

/-- A prompt action.  Modelled from the spec: `create_rev_prompt`
(ops/mod.rs, not in src/) builds an Action that prompts the user with the
given text for a revision and feeds the menu args plus the entered
revision to the callback. -/
structure Action where
  prompt : String
  callback : List String → String → RunSpec

/-- Modelled from the spec: see `Action`. -/
def create_rev_prompt (prompt : String) (command : List String → String → RunSpec) : Action :=
  { prompt := prompt, callback := command }

/-- reset_soft (ops/reset.rs lines 17-23): git reset --soft, then the menu
args, then the prompted revision, empty stdin. -/
def reset_soft (args : List String) (input : String) : RunSpec :=
  { cmd := { program := "git", args := ["reset", "--soft"] ++ args ++ [input] }, stdin := "" }

/-- reset_mixed (ops/reset.rs lines 34-40). -/
def reset_mixed (args : List String) (input : String) : RunSpec :=
  { cmd := { program := "git", args := ["reset", "--mixed"] ++ args ++ [input] }, stdin := "" }

/-- reset_hard (ops/reset.rs lines 51-57). -/
def reset_hard (args : List String) (input : String) : RunSpec :=
  { cmd := { program := "git", args := ["reset", "--hard"] ++ args ++ [input] }, stdin := "" }

/-- ResetSoft::get_action (ops/reset.rs lines 11-15): ignores the target. -/
def ResetSoft.get_action (_target : Option TargetData) : Option Action :=
  some (create_rev_prompt ("Soft reset to") reset_soft)

/-- ResetMixed::get_action (ops/reset.rs lines 28-32). -/
def ResetMixed.get_action (_target : Option TargetData) : Option Action :=
  some (create_rev_prompt ("Mixed reset to") reset_mixed)

/-- ResetHard::get_action (ops/reset.rs lines 45-49). -/
def ResetHard.get_action (_target : Option TargetData) : Option Action :=
  some (create_rev_prompt ("Hard reset to") reset_hard)

end reset

/-! Concrete fixtures used by the closed instance theorems. -/

/-- A key lookup table in which every key is unbound. -/
def lookup_none : KeyLookup := fun _ _ => none

/-- A key lookup table binding every key to the stage target operation. -/
def lookup_stage : KeyLookup := fun _ _ => some (Op.Target TargetOp.Stage)

/-- A key lookup table binding every key to the discard target operation. -/
def lookup_discard : KeyLookup := fun _ _ => some (Op.Target TargetOp.Discard)

/-- A key lookup table binding every key to Quit. -/
def lookup_quit : KeyLookup := fun _ _ => some Op.Quit

/-- A key lookup table binding every key to LogCurrent. -/
def lookup_log : KeyLookup := fun _ _ => some Op.LogCurrent

/-- A key lookup table binding every key to ShowRefs. -/
def lookup_refs : KeyLookup := fun _ _ => some Op.ShowRefs

/-- A sample key press. -/
def key0 : KeyEvent := { code := 0, press := true }

/-- A fresh status screen. -/
def base_screen : Screen := screen.status_create

/-- A status screen whose selection carries a ref target. -/
def ref_screen : Screen :=
  { base_screen with selected_target := some (TargetData.Ref "main") }

/-- A renamed file's delta. -/
def rename_delta : Delta := { old_file := "a.txt", new_file := "b.txt" }

/-- A status screen whose selection carries a renamed delta. -/
def rename_screen : Screen :=
  { base_screen with selected_target := some (TargetData.Delta rename_delta) }

/-- An idle state over one status screen. -/
def idle_state : State :=
  { quit := false, screens := [base_screen], pending_transient_op := TransientOp.NoneT,
    command := none, editor_env := "vi", removed_files := [] }

/-- A state with a pending transient group. -/
def state_pending_group : State :=
  { idle_state with pending_transient_op := TransientOp.Other 0 }

/-- A state with the help overlay pending. -/
def state_pending_help : State :=
  { idle_state with pending_transient_op := TransientOp.Help }

/-- An idle state whose selection is a ref. -/
def state_ref_selected : State :=
  { idle_state with screens := [ref_screen] }

/-- An idle state whose selection is a renamed delta. -/
def state_rename_selected : State :=
  { idle_state with screens := [rename_screen] }

/-- A live captured-mode command. -/
def running_command : IssuedCommand := IssuedCommand.spawn "" git.pull_cmd

/-- A state with a live command. -/
def state_running : State := { idle_state with command := some running_command }

/-- A command whose child has exited but whose completion edge has not yet
been consumed, with some output still in the pipe. -/
def finished_command : IssuedCommand :=
  { spec := git.fetch_all_cmd, stdin := "", subscreen := false, running := false,
    finish_acked := false, buffer := "a", pending_output := "b" }

/-- A state holding a just-finished command. -/
def state_finished : State := { idle_state with command := some finished_command }

/-- A three-deep navigation stack. -/
def deep_state : State :=
  { idle_state with screens := [base_screen, ref_screen, rename_screen] }

/-! Helper lemmas about the embedding, shared by the claim theorems. -/

theorem updateLast_length (f : Screen → Screen) :
    ∀ l : List Screen, (updateLast f l).length = l.length
  | [] => rfl
  | [_] => rfl
  | x :: y :: xs => by
    simp only [updateLast, List.length_cons]
    rw [updateLast_length f (y :: xs)]
    simp

theorem updateLast_append (f : Screen → Screen) :
    ∀ (l : List Screen) (x : Screen), updateLast f (l ++ [x]) = l ++ [f x]
  | [], _ => rfl
  | [_], _ => rfl
  | a :: b :: t, x => by
    have ih := updateLast_append f (b :: t) x
    simp only [List.cons_append] at ih ⊢
    rw [updateLast, ih]

theorem update_top_pending (s : State) :
    s.update_top.pending_transient_op = s.pending_transient_op := rfl

theorem update_top_quit (s : State) : s.update_top.quit = s.quit := rfl

theorem update_top_command (s : State) : s.update_top.command = s.command := rfl

theorem update_top_length (s : State) :
    s.update_top.screens.length = s.screens.length := by
  simp [State.update_top, updateLast_length]

theorem issue_command_pending (s : State) (i : String) (c : CmdSpec) :
    (s.issue_command i c).pending_transient_op = s.pending_transient_op := by
  unfold State.issue_command; split <;> rfl

theorem issue_command_quit (s : State) (i : String) (c : CmdSpec) :
    (s.issue_command i c).quit = s.quit := by
  unfold State.issue_command; split <;> rfl

theorem issue_command_screens (s : State) (i : String) (c : CmdSpec) :
    (s.issue_command i c).screens = s.screens := by
  unfold State.issue_command; split <;> rfl

theorem issue_subscreen_pending (s : State) (c : CmdSpec) :
    (s.issue_subscreen_command c).pending_transient_op = s.pending_transient_op := by
  unfold State.issue_subscreen_command; split <;> rfl

theorem issue_subscreen_quit (s : State) (c : CmdSpec) :
    (s.issue_subscreen_command c).quit = s.quit := by
  unfold State.issue_subscreen_command; split <;> rfl

theorem issue_subscreen_screens (s : State) (c : CmdSpec) :
    (s.issue_subscreen_command c).screens = s.screens := by
  unfold State.issue_subscreen_command; split <;> rfl

/-- Every closure produced by `closure_by_target_op` leaves the transient
state and the quit flag alone and never shrinks the screen stack. -/
theorem closure_preserves (act : TargetData) (top : TargetOp) (f : State → State)
    (hf : closure_by_target_op act top = some f) (s : State) :
    (f s).pending_transient_op = s.pending_transient_op ∧
    (f s).quit = s.quit ∧
    s.screens.length ≤ (f s).screens.length := by
  cases act <;> cases top <;>
    simp only [closure_by_target_op, goto_show_screen, editor, cmd, cmd_arg,
      subscreen_arg] at hf
  all_goals try split at hf
  all_goals
    first
      | exact Option.noConfusion hf
      | (obtain rfl := Option.some.inj hf
         refine ⟨?_, ?_, ?_⟩ <;>
           simp [editor_run, update_top_pending, update_top_quit, update_top_length,
             issue_command_pending, issue_command_quit, issue_command_screens,
             issue_subscreen_pending, issue_subscreen_quit, issue_subscreen_screens])

theorem handle_op_none (lookup : KeyLookup) (s : State) (key : KeyEvent)
    (h : lookup s.effective_pending key = none) :
    handle_op lookup s key = s := by
  unfold handle_op
  rw [h]

/-- Setting the pending transient group to the value it already has is the
identity. -/
theorem set_pending_eq_self (s : State)
    (h : s.pending_transient_op = TransientOp.NoneT) :
    ({ s with pending_transient_op := TransientOp.NoneT } : State) = s := by
  cases s
  simp_all

/-- When the selected target's closure is undefined, the Target arm does
nothing. -/
theorem target_dispatch_of_none (top : TargetOp) (s1 : State) (sc : Screen)
    (act : TargetData)
    (hlast : s1.screens.getLast? = some sc)
    (hsel : sc.selected_target = some act)
    (hnone : closure_by_target_op act top = none) :
    target_dispatch top s1 = s1 := by
  unfold target_dispatch
  split
  · rfl
  · split
    · split
      · simp_all
      · rfl
    · rfl

theorem target_dispatch_pending (top : TargetOp) (s1 : State) :
    (target_dispatch top s1).pending_transient_op = s1.pending_transient_op := by
  unfold target_dispatch
  split
  · rfl
  · split
    · split
      · rename_i f hc
        exact (closure_preserves _ _ f hc s1).1
      · rfl
    · rfl

theorem target_dispatch_quit (top : TargetOp) (s1 : State) :
    (target_dispatch top s1).quit = s1.quit := by
  unfold target_dispatch
  split
  · rfl
  · split
    · split
      · rename_i f hc
        exact (closure_preserves _ _ f hc s1).2.1
      · rfl
    · rfl

theorem target_dispatch_length (top : TargetOp) (s1 : State) :
    s1.screens.length ≤ (target_dispatch top s1).screens.length := by
  unfold target_dispatch
  split
  · exact Nat.le_refl _
  · split
    · split
      · rename_i f hc
        exact (closure_preserves _ _ f hc s1).2.2
      · exact Nat.le_refl _
    · exact Nat.le_refl _

/-- When the selected target's closure is undefined, handle_op only clears
the transient state. -/
theorem handle_op_target_none (lookup : KeyLookup) (s : State) (key : KeyEvent)
    (top : TargetOp) (act : TargetData) (sc : Screen)
    (hres : lookup s.effective_pending key = some (Op.Target top))
    (hlast : s.screens.getLast? = some sc)
    (hsel : sc.selected_target = some act)
    (hnone : closure_by_target_op act top = none) :
    handle_op lookup s key = { s with pending_transient_op := TransientOp.NoneT } := by
  unfold handle_op
  rw [hres]
  dsimp only
  exact target_dispatch_of_none top _ sc act hlast hsel hnone

/-- The transient state after handle_op, as a function of what the key
resolved to. -/
theorem handle_op_pending_eq (lookup : KeyLookup) (s : State) (key : KeyEvent) :
    (handle_op lookup s key).pending_transient_op =
      match lookup s.effective_pending key with
      | none => s.pending_transient_op
      | some (Op.Transient t) => t
      | some _ => TransientOp.NoneT := by
  unfold handle_op
  cases hres : lookup s.effective_pending key with
  | none => rfl
  | some op =>
    cases op <;> dsimp only
    all_goals try rfl
    all_goals try simp only [update_top_pending, issue_command_pending,
      issue_subscreen_pending, target_dispatch_pending]
    case Quit =>
      split
      · rfl
      · split <;> rfl

/-- No operation other than Quit can change the quit flag. -/
theorem handle_op_quit_preserved (lookup : KeyLookup) (s : State) (key : KeyEvent)
    (op : Op) (hres : lookup s.effective_pending key = some op) (hop : op ≠ Op.Quit) :
    (handle_op lookup s key).quit = s.quit := by
  unfold handle_op
  rw [hres]
  cases op <;> dsimp only
  all_goals try rfl
  all_goals try simp only [update_top_quit, issue_command_quit,
    issue_subscreen_quit, target_dispatch_quit]
  case Quit => exact absurd rfl hop

/-- No operation other than Quit can empty the screen stack. -/
theorem handle_op_screens_pos (lookup : KeyLookup) (s : State) (key : KeyEvent)
    (op : Op) (hres : lookup s.effective_pending key = some op) (hop : op ≠ Op.Quit)
    (hne : 0 < s.screens.length) :
    0 < (handle_op lookup s key).screens.length := by
  unfold handle_op
  rw [hres]
  cases op <;> dsimp only
  all_goals try exact hne
  all_goals try simpa [State.update_top, updateLast_length, issue_command_screens,
    issue_subscreen_screens, goto_log_screen, goto_refs_screen] using hne
  case Quit => exact absurd rfl hop
  case Target top =>
    refine lt_of_lt_of_le ?_ (target_dispatch_length top _)
    simpa using hne

theorem updateLast_clamp : ∀ l : List Screen, updateLast Screen.clamp_cursor l = l
  | [] => rfl
  | [_] => rfl
  | x :: y :: xs => by
    rw [updateLast, updateLast_clamp (y :: xs)]

/-! The claim theorems. -/

/-- C1: at most one IssuedCommand is live at a time.  While the stored
command reports `is_running`, both spawn entry points leave `state.command`
untouched (the in-flight command is neither interrupted, replaced, nor
queued); when no command is running, the freshly spawned IssuedCommand is
stored. -/
theorem c1_at_most_one_live_command (s : State) (input : String) (ca cb : CmdSpec) :
    (∀ c, s.command = some c → c.is_running = true →
      (s.issue_command input ca).command = s.command ∧
      (s.issue_subscreen_command cb).command = s.command) ∧
    (commandIsRunning s.command = false →
      (s.issue_command input ca).command = some (IssuedCommand.spawn input ca) ∧
      (s.issue_subscreen_command cb).command = some (IssuedCommand.spawn_in_subscreen cb)) := by
  constructor
  · intro c hc hrun
    have hg : commandIsRunning s.command = true := by
      rw [hc]
      simpa [commandIsRunning] using hrun
    constructor <;> simp [State.issue_command, State.issue_subscreen_command, hg]
  · intro hg
    constructor <;> simp [State.issue_command, State.issue_subscreen_command, hg]

/-- C1 witness: a concrete running command is not replaced, and with no
command live the spawn is stored. -/
theorem c1_witness :
    (state_running.issue_command "" git.push_cmd).command = state_running.command ∧
    (idle_state.issue_command "" git.push_cmd).command = some (IssuedCommand.spawn "" git.push_cmd) := by
  constructor
  · exact ((c1_at_most_one_live_command state_running "" git.push_cmd git.push_cmd).1
      running_command rfl rfl).1
  · exact ((c1_at_most_one_live_command idle_state "" git.push_cmd git.push_cmd).2 rfl).1

/-- C2: closure_by_target_op is total over the variant matrix with an
Option result; every statically undefined combination yields none, and in
handle_op a none result issues no command and leaves the state unchanged
apart from the transient key state returning to Idle. -/
theorem c2_target_matrix_none (lookup : KeyLookup) (s : State) (key : KeyEvent)
    (top : TargetOp) (act : TargetData) (sc : Screen) :
    (∀ r, closure_by_target_op (TargetData.Ref r) TargetOp.Stage = none) ∧
    (∀ r, closure_by_target_op (TargetData.Ref r) TargetOp.Unstage = none) ∧
    (∀ u, closure_by_target_op (TargetData.File u) TargetOp.Unstage = none) ∧
    (∀ r, closure_by_target_op (TargetData.Ref r) TargetOp.Discard = none) ∧
    (∀ u, closure_by_target_op (TargetData.File u) TargetOp.Checkout = none) ∧
    (∀ d, closure_by_target_op (TargetData.Delta d) TargetOp.Checkout = none) ∧
    (∀ h, closure_by_target_op (TargetData.Hunk h) TargetOp.Checkout = none) ∧
    (∀ t, (∀ r, t ≠ TargetData.Ref r) →
      closure_by_target_op t TargetOp.RebaseInteractive = none ∧
      closure_by_target_op t TargetOp.CommitFixup = none ∧
      closure_by_target_op t TargetOp.RebaseAutosquash = none) ∧
    (lookup s.effective_pending key = some (Op.Target top) →
      s.screens.getLast? = some sc →
      sc.selected_target = some act →
      closure_by_target_op act top = none →
      (handle_op lookup s key).command = s.command ∧
      (handle_op lookup s key).screens = s.screens ∧
      (handle_op lookup s key).quit = s.quit ∧
      handle_op lookup s key = { s with pending_transient_op := TransientOp.NoneT }) := by
  refine ⟨fun _ => rfl, fun _ => rfl, fun _ => rfl, fun _ => rfl, fun _ => rfl,
    fun _ => rfl, fun _ => rfl, ?_, ?_⟩
  · intro t ht
    cases t with
    | Ref r => exact absurd rfl (ht r)
    | File u => exact ⟨rfl, rfl, rfl⟩
    | Delta d => exact ⟨rfl, rfl, rfl⟩
    | Hunk h => exact ⟨rfl, rfl, rfl⟩
  · intro hres hlast hsel hnone
    rw [handle_op_target_none lookup s key top act sc hres hlast hsel hnone]
    exact ⟨rfl, rfl, rfl, rfl⟩

/-- C2 witness: staging a ref resolves to none, and the key press is
absorbed without touching the state. -/
theorem c2_witness :
    closure_by_target_op (TargetData.Ref "main") TargetOp.Stage = none ∧
    handle_op lookup_stage state_ref_selected key0 = state_ref_selected := by
  have h := c2_target_matrix_none lookup_stage state_ref_selected key0
    TargetOp.Stage (TargetData.Ref "main") ref_screen
  refine ⟨h.1 "main", ?_⟩
  have h2 := (h.2.2.2.2.2.2.2.2 rfl rfl rfl rfl).2.2.2
  rw [h2]
  exact set_pending_eq_self state_ref_selected rfl

/-- C7: discarding a renamed delta (old path differs from new path)
resolves to no action: the closure is none, no command is issued, and the
screens and the filesystem effect trace are unchanged. -/
theorem c7_discard_rename_noop (lookup : KeyLookup) (s : State) (key : KeyEvent)
    (d : Delta) (sc : Screen) (hne : d.old_file ≠ d.new_file) :
    closure_by_target_op (TargetData.Delta d) TargetOp.Discard = none ∧
    (lookup s.effective_pending key = some (Op.Target TargetOp.Discard) →
      s.screens.getLast? = some sc →
      sc.selected_target = some (TargetData.Delta d) →
      (handle_op lookup s key).command = s.command ∧
      (handle_op lookup s key).screens = s.screens ∧
      (handle_op lookup s key).removed_files = s.removed_files) := by
  have hnone : closure_by_target_op (TargetData.Delta d) TargetOp.Discard = none := by
    simp [closure_by_target_op, hne]
  refine ⟨hnone, ?_⟩
  intro hres hlast hsel
  rw [handle_op_target_none lookup s key TargetOp.Discard (TargetData.Delta d) sc hres hlast hsel hnone]
  exact ⟨rfl, rfl, rfl⟩

/-- C3: Quit dispatched with no pending transient group pops the top
screen; if a screen remains its update is called and the quit flag is
untouched, if the stack becomes empty the quit flag is set; the event loop
stops as soon as quit is set; and no operation other than Quit can empty
the stack. -/
theorem c3_quit_pops_and_exits (lookup : KeyLookup) (s s2 : State) (key : KeyEvent)
    (events : List Event) :
    (lookup TransientOp.NoneT key = some Op.Quit →
      s.pending_transient_op = TransientOp.NoneT →
      ((s.screens.dropLast = [] →
        handle_op lookup s key = { s with screens := [], quit := true }) ∧
       (∀ l x, s.screens.dropLast = l ++ [x] →
        (handle_op lookup s key).screens = l ++ [Screen.update x] ∧
        (Screen.update x).updates = x.updates + 1 ∧
        (handle_op lookup s key).quit = s.quit))) ∧
    (∀ op, op ≠ Op.Quit → lookup s.effective_pending key = some op →
      0 < s.screens.length → 0 < (handle_op lookup s key).screens.length) ∧
    (s2.quit = true → run lookup events s2 = s2) := by
  refine ⟨?_, ?_, ?_⟩
  · intro hres hpend
    have heff : s.effective_pending = TransientOp.NoneT := by
      unfold State.effective_pending
      rw [hpend]
      rfl
    constructor
    · intro hde
      unfold handle_op
      rw [heff, hres]
      dsimp only
      simp [hpend, hde]
    · intro l x hlx
      have hie : (s.screens.dropLast).isEmpty = false := by
        rw [hlx]
        cases l <;> rfl
      have hmain : handle_op lookup s key = { s with screens := l ++ [Screen.update x] } := by
        unfold handle_op
        rw [heff, hres]
        dsimp only
        simp [hpend, hie, hlx, updateLast_append]
      rw [hmain]
      exact ⟨rfl, rfl, rfl⟩
  · intro op hop hres hpos
    exact handle_op_screens_pos lookup s key op hres hop hpos
  · intro hq
    cases events with
    | nil => rfl
    | cons e es => simp [run, hq]

/-- C3 witness: quitting the last screen sets the quit flag and the loop
then consumes no further events; quitting a two-deep stack pops and
refreshes the remaining screen. -/
theorem c3_witness :
    handle_op lookup_quit idle_state key0 = { idle_state with screens := [], quit := true } ∧
    run lookup_quit [Event.Other] { idle_state with quit := true } = { idle_state with quit := true } ∧
    (handle_op lookup_quit deep_state key0).screens = [base_screen, Screen.update ref_screen] := by
  have h := c3_quit_pops_and_exits lookup_quit idle_state
    { idle_state with quit := true } key0 [Event.Other]
  have h2 := c3_quit_pops_and_exits lookup_quit deep_state
    { idle_state with quit := true } key0 [Event.Other]
  exact ⟨(h.1 rfl rfl).1 rfl, h.2.2 rfl, ((h2.1 rfl rfl).2 [base_screen] ref_screen rfl).1⟩

/-- C4 counterexample: with transient group pending and an unbound key,
the dispatch state does not return to Idle, refuting the claim at this
input: the pending group stays in place. -/
theorem c4_counterexample :
    (handle_op lookup_none state_pending_group key0).pending_transient_op = TransientOp.Other 0 ∧
    TransientOp.Other 0 ≠ TransientOp.NoneT := by
  exact ⟨rfl, by decide⟩

/-- C4 amended: with a transient group pending, a key press that matches no
operation in that group is ignored entirely: the state, including the
pending group, is unchanged, no operation is performed and no crash
occurs. -/
theorem c4_unmatched_key_ignored (lookup : KeyLookup) (s : State) (key : KeyEvent)
    (g : Nat) (hg : s.pending_transient_op = TransientOp.Other g)
    (hnone : lookup (TransientOp.Other g) key = none) :
    handle_op lookup s key = s := by
  apply handle_op_none
  have heff : s.effective_pending = TransientOp.Other g := by
    unfold State.effective_pending
    rw [hg]
    rfl
  rw [heff]
  exact hnone

/-- C4 witness: the amended statement at the counterexample's input. -/
theorem c4_witness : handle_op lookup_none state_pending_group key0 = state_pending_group :=
  c4_unmatched_key_ignored lookup_none state_pending_group key0 0 rfl rfl

/-- C5 counterexample: with Help pending and a key bound to nothing in the
base table, the state after handle_op is still Help, refuting the claim
that any key clears it. -/
theorem c5_counterexample :
    (handle_op lookup_none state_pending_help key0).pending_transient_op = TransientOp.Help := by
  rfl

/-- C5 amended: with Help pending the next key is looked up against the
base table as if no group were pending; if it resolves to any operation
the pending state clears (entering group g when the operation is
Transient g, hence Help again only via the help binding), while a key that
resolves to no operation leaves Help pending. -/
theorem c5_help_clears_on_match (lookup : KeyLookup) (s : State) (key : KeyEvent)
    (hh : s.pending_transient_op = TransientOp.Help) :
    (lookup TransientOp.NoneT key = none → handle_op lookup s key = s) ∧
    (∀ op, lookup TransientOp.NoneT key = some op →
      (handle_op lookup s key).pending_transient_op =
        (match op with
         | Op.Transient t => t
         | _ => TransientOp.NoneT)) := by
  have heff : s.effective_pending = TransientOp.NoneT := by
    unfold State.effective_pending
    rw [hh]
    rfl
  constructor
  · intro hn
    apply handle_op_none
    rw [heff]
    exact hn
  · intro op hsome
    have hp := handle_op_pending_eq lookup s key
    rw [heff, hsome] at hp
    rw [hp]
    cases op <;> rfl

/-- C5 witness: the amended statement at concrete inputs: an unbound key
leaves Help pending, a key bound to Quit clears it. -/
theorem c5_witness :
    handle_op lookup_none state_pending_help key0 = state_pending_help ∧
    (handle_op lookup_quit state_pending_help key0).pending_transient_op = TransientOp.NoneT := by
  have h := c5_help_clears_on_match lookup_none state_pending_help key0 rfl
  have h2 := c5_help_clears_on_match lookup_quit state_pending_help key0 rfl
  refine ⟨h.1 rfl, ?_⟩
  have h3 := h2.2 Op.Quit rfl
  simpa using h3

/-- C7 witness: a concrete rename, discard pressed, nothing happens. -/
theorem c7_witness :
    closure_by_target_op (TargetData.Delta rename_delta) TargetOp.Discard = none ∧
    (handle_op lookup_discard state_rename_selected key0).command = state_rename_selected.command := by
  have h := c7_discard_rename_noop lookup_discard state_rename_selected key0
    rename_delta rename_screen (by decide)
  exact ⟨h.1, (h.2 rfl rfl rfl).1⟩

/-- C6: on every event-loop step the live command's output is drained into
its buffer before the event is handled (the Other-event conjunct shows
`update` is `handle_command_output` alone when nothing else applies), the
active screen's update is called if and only if the completion edge fires
on that step, and a second pass never refreshes again for the same
completion. -/
theorem c6_drain_and_edge_refresh (lookup : KeyLookup) (s : State) (c : IssuedCommand)
    (hc : s.command = some c) :
    (s.handle_command_output.command =
        some (IssuedCommand.just_finished c.read_command_output_to_buffer).2 ∧
      (IssuedCommand.just_finished c.read_command_output_to_buffer).2.buffer =
        c.buffer ++ c.pending_output) ∧
    (s.handle_command_output.screens =
      if c.finish_acked = false ∧ c.running = false
      then updateLast Screen.update s.screens else s.screens) ∧
    (s.handle_command_output.handle_command_output.screens =
      s.handle_command_output.screens) ∧
    (update lookup s Event.Other = s.handle_command_output) := by
  refine ⟨⟨?_, ?_⟩, ?_, ?_, ?_⟩
  · unfold State.handle_command_output
    rw [hc]
    dsimp only
    split <;> rfl
  · unfold IssuedCommand.just_finished IssuedCommand.read_command_output_to_buffer
    dsimp only
    split
    · rfl
    · split <;> rfl
  · cases hA : c.finish_acked <;> cases hR : c.running <;>
      simp [State.handle_command_output, hc, IssuedCommand.just_finished,
        IssuedCommand.read_command_output_to_buffer, State.update_top, hA, hR]
  · cases hA : c.finish_acked <;> cases hR : c.running <;>
      simp [State.handle_command_output, hc, IssuedCommand.just_finished,
        IssuedCommand.read_command_output_to_buffer, State.update_top, hA, hR]
  · unfold update
    dsimp only
    rw [updateLast_clamp]

/-- C6 witness: a command that just exited with undrained output: the
buffer is drained, the screen refreshed once, and a second pass does not
refresh again. -/
theorem c6_witness :
    (state_finished.handle_command_output.command =
        some (IssuedCommand.just_finished finished_command.read_command_output_to_buffer).2 ∧
      (IssuedCommand.just_finished finished_command.read_command_output_to_buffer).2.buffer =
        finished_command.buffer ++ finished_command.pending_output) ∧
    state_finished.handle_command_output.screens =
      updateLast Screen.update state_finished.screens ∧
    state_finished.handle_command_output.handle_command_output.screens =
      state_finished.handle_command_output.screens := by
  have h := c6_drain_and_edge_refresh lookup_none state_finished finished_command rfl
  refine ⟨h.1, ?_, h.2.2.1⟩
  have h2 := h.2.1
  simpa using h2

/-- C8: the Show operation on File, Delta and Hunk targets opens the
editor named by the EDITOR variable; with a target line, vi, vim, nvim and
nano receive the arguments plus-line then file, any other editor receives
the single argument file colon line, and with no target line the single
argument is the file path alone. -/
theorem c8_editor_convention (u : String) (d : Delta) (h : Hunk) (s : State)
    (ed file : String) (l : Nat) :
    closure_by_target_op (TargetData.File u) TargetOp.Show = some (editor_run u none) ∧
    closure_by_target_op (TargetData.Delta d) TargetOp.Show = some (editor_run d.new_file none) ∧
    closure_by_target_op (TargetData.Hunk h) TargetOp.Show =
      some (editor_run h.new_file (some h.first_diff_line)) ∧
    ((ed = "vi" ∨ ed = "vim" ∨ ed = "nvim" ∨ ed = "nano") →
      editor_args ed file (some l) = ["+" ++ toString l, file]) ∧
    (ed ≠ "vi" → ed ≠ "vim" → ed ≠ "nvim" → ed ≠ "nano" →
      editor_args ed file (some l) = [file ++ ":" ++ toString l]) ∧
    editor_args ed file none = [file] ∧
    (∀ line, commandIsRunning s.command = false →
      (editor_run file line s).command = some (IssuedCommand.spawn_in_subscreen
        { program := s.editor_env, args := editor_args s.editor_env file line })) := by
  refine ⟨rfl, rfl, rfl, ?_, ?_, rfl, ?_⟩
  · rintro (rfl | rfl | rfl | rfl) <;> rfl
  · intro h1 h2 h3 h4
    unfold editor_args
    split <;> simp_all
  · intro line hg
    simp [editor_run, State.issue_subscreen_command, hg, update_top_command]

/-- C8 witness: the argument conventions at concrete editors and the
command stored for a concrete state. -/
theorem c8_witness :
    editor_args "vi" "f.txt" (some 3) = ["+" ++ toString 3, "f.txt"] ∧
    editor_args "code" "f.txt" (some 3) = ["f.txt" ++ ":" ++ toString 3] ∧
    editor_args "vi" "f.txt" none = ["f.txt"] ∧
    (editor_run "f.txt" (some 3) idle_state).command = some (IssuedCommand.spawn_in_subscreen
      { program := idle_state.editor_env, args := editor_args idle_state.editor_env "f.txt" (some 3) }) := by
  have h := c8_editor_convention "x" rename_delta ⟨"x", 0, ""⟩ idle_state "vi" "f.txt" 3
  have h2 := c8_editor_convention "x" rename_delta ⟨"x", 0, ""⟩ idle_state "code" "f.txt" 3
  exact ⟨h.2.2.2.1 (Or.inl rfl),
    h2.2.2.2.2.1 (by decide) (by decide) (by decide) (by decide),
    h.2.2.2.2.2.1,
    h.2.2.2.2.2.2 (some 3) rfl⟩

/-- C9: LogCurrent and ShowRefs first discard every screen above the root
and then push the new screen, so afterwards the stack is exactly the
original root plus the new screen: length two, history lost. -/
theorem c9_nav_resets_stack (lookup : KeyLookup) (s : State) (key : KeyEvent)
    (root : Screen) (rest : List Screen) (hs : s.screens = root :: rest) :
    goto_log_screen s.screens = [root, screen.log_create []] ∧
    goto_refs_screen s.screens = [root, screen.show_refs_create] ∧
    (goto_log_screen s.screens).length = 2 ∧
    (goto_refs_screen s.screens).length = 2 ∧
    (lookup s.effective_pending key = some Op.LogCurrent →
      (handle_op lookup s key).screens = [root, screen.log_create []]) ∧
    (lookup s.effective_pending key = some Op.ShowRefs →
      (handle_op lookup s key).screens = [root, screen.show_refs_create]) := by
  refine ⟨?_, ?_, ?_, ?_, ?_, ?_⟩
  · simp [goto_log_screen, hs]
  · simp [goto_refs_screen, hs]
  · simp [goto_log_screen, hs]
  · simp [goto_refs_screen, hs]
  · intro hres
    unfold handle_op
    rw [hres]
    dsimp only
    simp [goto_log_screen, hs]
  · intro hres
    unfold handle_op
    rw [hres]
    dsimp only
    simp [goto_refs_screen, hs]

/-- C9 witness: from a three-deep stack, both navigations leave exactly the
root and the new screen. -/
theorem c9_witness :
    (handle_op lookup_log deep_state key0).screens = [base_screen, screen.log_create []] ∧
    (handle_op lookup_refs deep_state key0).screens = [base_screen, screen.show_refs_create] := by
  have h := c9_nav_resets_stack lookup_log deep_state key0
    base_screen [ref_screen, rename_screen] rfl
  have h2 := c9_nav_resets_stack lookup_refs deep_state key0
    base_screen [ref_screen, rename_screen] rfl
  exact ⟨h.2.2.2.2.1 rfl, h2.2.2.2.2.2 rfl⟩

/-- C10: each reset operation returns a prompt action for every target
argument, including no target at all, and its callback runs git reset with
the matching flag, then the menu args, then the prompted revision, with
empty stdin. -/
theorem c10_reset_actions (t : Option TargetData) (args : List String) (input : String) :
    reset.ResetSoft.get_action t =
      some (reset.create_rev_prompt ("Soft reset to") reset.reset_soft) ∧
    reset.ResetMixed.get_action t =
      some (reset.create_rev_prompt ("Mixed reset to") reset.reset_mixed) ∧
    reset.ResetHard.get_action t =
      some (reset.create_rev_prompt ("Hard reset to") reset.reset_hard) ∧
    reset.reset_soft args input =
      { cmd := { program := "git", args := ["reset", "--soft"] ++ args ++ [input] }, stdin := "" } ∧
    reset.reset_mixed args input =
      { cmd := { program := "git", args := ["reset", "--mixed"] ++ args ++ [input] }, stdin := "" } ∧
    reset.reset_hard args input =
      { cmd := { program := "git", args := ["reset", "--hard"] ++ args ++ [input] }, stdin := "" } :=
  ⟨rfl, rfl, rfl, rfl, rfl, rfl⟩

end Gitu
